import Mathlib

namespace VsgShaderModule

/-! Shallow embedding of `src/src/vsg/state/ShaderModule.cpp`.

Strings are modelled as `List Char`; `std::string::size_type` arithmetic is
modelled as `Nat` with an explicit modulus `2 ^ 64` at the one subtraction
that can wrap (`num_characters -= 2` at line 210).  `find`-style members
return `Option Nat` in place of the `npos` sentinel; every comparison with
`npos` in the source is mirrored by a `match` on the option. -/

abbrev Str := List Char

/-- Modulus of `std::string::size_type` (64-bit `size_t`). -/
def SIZE_MAX : Nat := 2 ^ 64

/-- `code[i]` (all accesses made by the source are in bounds, so the
default value is never produced on the traced executions). -/
def charAt (s : Str) (i : Nat) : Char := s.getD i (Char.ofNat 0)

/-- `std::string(code, pos, n)` — the substring of length `n` starting at
`pos`, clipped to the end of the string (line 216). -/
def substrFrom (s : Str) (pos n : Nat) : Str := (s.drop pos).take n

/-- `code.erase(pos, n)` (line 218). -/
def strErase (s : Str) (pos n : Nat) : Str := s.take pos ++ s.drop (pos + n)

/-- `code.insert(pos, t)` (lines 226-255). -/
def strInsert (s : Str) (pos : Nat) (t : Str) : Str := s.take pos ++ (t ++ s.drop pos)

/-- Generic character scan: first index `≥ j` (on the suffix `rem`, whose own
index 0 sits at absolute index `j`) whose character satisfies `p`. -/
def findCharFrom (p : Char → Bool) : Str → Nat → Option Nat
  | [], _ => none
  | c :: cs, j => if p c then some j else findCharFrom p cs (j + 1)

/-- Characters of the set `"\n\r"` (line 170). -/
def isEOLChar (c : Char) : Bool := c = '\n' || c = '\r'

/-- Characters of the set `" \t"` (lines 175, 186, 192, 200). -/
def isWSChar (c : Char) : Bool := c = ' ' || c = '\t'

/-- `code.find_first_of("\n\r", pos)` (line 170). -/
def find_first_of_eol (s : Str) (pos : Nat) : Option Nat :=
  findCharFrom isEOLChar (s.drop pos) pos

/-- `code.find_first_not_of(" \t", pos)` (lines 175, 186, 192). -/
def find_first_not_of_ws (s : Str) (pos : Nat) : Option Nat :=
  findCharFrom (fun c => !isWSChar c) (s.drop pos) pos

/-- Search kernel of `std::string::find(pat, pos)`: first index `≥ j` where
`pat` occurs (the suffix `rem` starts at absolute index `j`). -/
def strFindFrom (pat : Str) : Str → Nat → Option Nat
  | [], j => if pat.isEmpty then some j else none
  | c :: cs, j => if pat.isPrefixOf (c :: cs) then some j else strFindFrom pat cs (j + 1)

/-- `code.find(pat, pos)` (line 165). -/
def strFind (s pat : Str) (pos : Nat) : Option Nat := strFindFrom pat (s.drop pos) pos

/-- The literal `"#pragma"` (line 165). -/
def pragmaTok : Str := "#pragma".toList

/-- The literal `"#include"` (line 165). -/
def includeTok : Str := "#include".toList

/-- The literal `"include"` compared at line 179. -/
def includeWord : Str := "include".toList

/-- `startOfIncludeMarker` (line 150). -/
def startOfIncludeMarker : Str := "// Start of include code : ".toList

/-- `endOfIncludeMarker` (line 151). -/
def endOfIncludeMarker : Str := "// End of include code : ".toList

/-- `failedLoadMarker` (line 152). -/
def failedLoadMarker : Str := "// Failed to load include code : ".toList

/-- `endOfLine` (lines 154-160); the `#else` (linefeed-only) platform branch. -/
def endOfLine : Str := "\n".toList

/-- Trailing-whitespace pruning loop of line 200: while the last of the
`num` span characters starting at `pos` is a space or tab, shrink the span. -/
def pruneTrailing (code : Str) (pos : Nat) : Nat → Nat
  | 0 => 0
  | n + 1 => if isWSChar (charAt code (pos + n)) then pruneTrailing code pos n else n + 1

/-- The directive search of the `while` condition (line 165) and the
selection `pos = (pragma_pos != npos) ? pragma_pos : include_pos` (line 167).
The `||` in the source short-circuits: when `"#pragma"` is found,
`code.find("#include", pos)` is not evaluated and the pragma occurrence is
selected regardless of where any `"#include"` occurrence lies.  The `Bool`
is `true` when the pragma branch (line 172) is taken. -/
def nextDirective (code : Str) (pos : Nat) : Option (Nat × Bool) :=
  match strFind code pragmaTok pos with
  | some pragma_pos => some (pragma_pos, true)
  | none =>
    match strFind code includeTok pos with
    | some include_pos => some (include_pos, false)
    | none => none

/-- Lines 196-214: compute the filename span.  Returns `none` for the
`continue` of line 197 (`num_characters == 0`), otherwise the final
`(pos, num_characters)` pair.  The two `-=` statements on
`std::string::size_type` are mirrored modulo `2 ^ 64`; the `num_characters -= 2`
branch (line 210) wraps to `npos`-like magnitude when the span is the single
character `'"'`. -/
def parseFilenameSpan (code : Str) (end_of_line : Option Nat) (pos : Nat) : Option (Nat × Nat) :=
  -- line 196
  let num_characters : Nat :=
    match end_of_line with
    | none => code.length - pos
    | some e => e - pos
  -- line 197
  if num_characters = 0 then none
  else
    -- line 200
    let num_characters := pruneTrailing code pos num_characters
    -- lines 202-214
    if charAt code pos = '"' then
      if charAt code (pos + num_characters - 1) ≠ '"' then
        some (pos + 1, (num_characters + (SIZE_MAX - 1)) % SIZE_MAX)
      else
        some (pos + 1, (num_characters + (SIZE_MAX - 2)) % SIZE_MAX)
    else
      some (pos, num_characters)

/-- Lines 218-258: erase the directive line, reset the cursor to the start
of the erased line, then splice either the two marker lines around the
loaded fragment or the single failure marker.  `loaded` is the result of
`vsg::read_cast<ShaderModule>(filename, options)` (line 221), reduced to the
fragment's `source` text.  Returns the new buffer and cursor. -/
def spliceDirective (code : Str) (start_of_pragma_line : Nat) (end_of_line : Option Nat)
    (filename : Str) (loaded : Option Str) : Str × Nat :=
  -- line 218
  let eraseLen : Nat :=
    match end_of_line with
    | none => code.length - start_of_pragma_line
    | some e => e - start_of_pragma_line
  let code := strErase code start_of_pragma_line eraseLen
  -- line 219
  let pos := start_of_pragma_line
  match loaded with
  | some fragment =>
    -- lines 224-232 (the start marker is a nonempty constant)
    let code := strInsert code pos startOfIncludeMarker
    let pos := pos + startOfIncludeMarker.length
    let code := strInsert code pos filename
    let pos := pos + filename.length
    let code := strInsert code pos endOfLine
    let pos := pos + endOfLine.length
    -- lines 234-235
    let code := strInsert code pos fragment
    let pos := pos + fragment.length
    -- lines 237-245 (the end marker is a nonempty constant)
    let code := strInsert code pos endOfIncludeMarker
    let pos := pos + endOfIncludeMarker.length
    let code := strInsert code pos filename
    let pos := pos + filename.length
    let code := strInsert code pos endOfLine
    let pos := pos + endOfLine.length
    (code, pos)
  | none =>
    -- lines 249-257 (the failure marker is a nonempty constant)
    let code := strInsert code pos failedLoadMarker
    let pos := pos + failedLoadMarker.length
    let code := strInsert code pos filename
    let pos := pos + filename.length
    let code := strInsert code pos endOfLine
    let pos := pos + endOfLine.length
    (code, pos)

/-- Lines 196-258: filename extraction followed by the splice.  The
`continue` of line 197 keeps the buffer and the current cursor. -/
def processDirective (loader : Str → Option Str) (code : Str) (start_of_pragma_line : Nat)
    (end_of_line : Option Nat) (pos : Nat) : Option (Str × Nat) :=
  match parseFilenameSpan code end_of_line pos with
  | none => some (code, pos)
  | some (pos', num_characters) =>
    -- line 216
    let filename := substrFrom code pos' num_characters
    -- lines 218-258
    some (spliceDirective code start_of_pragma_line end_of_line filename (loader filename))

/-- One iteration of the `while` loop (lines 165-259).  `none` means the
loop terminates (the `while` condition fails, or one of the `break`
statements at lines 176, 187, 193 runs, or line 181 sets the cursor to
`npos`); `some (code, pos)` is the state for the next iteration. -/
def insertIncludesStep (loader : Str → Option Str) (code : Str) (pos : Nat) :
    Option (Str × Nat) :=
  match nextDirective code pos with
  | none => none
  | some (pos0, isPragma) =>
    -- lines 169-170
    let start_of_pragma_line := pos0
    let end_of_line := find_first_of_eol code pos0
    if isPragma then
      -- line 175
      match find_first_not_of_ws code (pos0 + 7) with
      | none => none                                     -- line 176: break
      | some pos1 =>
        -- line 179: code.compare(pos, 7, "include") != 0
        if substrFrom code pos1 7 = includeWord then
          -- line 186
          match find_first_not_of_ws code (pos1 + 7) with
          | none => none                                 -- line 187: break
          | some pos2 => processDirective loader code start_of_pragma_line end_of_line pos2
        else
          -- lines 181-182: pos = end_of_line; continue
          match end_of_line with
          | none => none                                 -- while condition: pos == npos
          | some e => some (code, e)
    else
      -- line 192
      match find_first_not_of_ws code (pos0 + 8) with
      | none => none                                     -- line 193: break
      | some pos2 => processDirective loader code start_of_pragma_line end_of_line pos2

/-- Fuel-driven unfolding of the `while` loop (line 165).  Each iteration
strictly shortens the unscanned suffix `code.drop pos` (every branch either
terminates or moves the cursor past at least one character of it, and all
spliced text is inserted behind the new cursor), so `source.length + 1`
units of fuel always suffice. -/
def insertIncludesLoop (loader : Str → Option Str) : Nat → Str → Nat → Str
  | 0, code, _ => code
  | fuel + 1, code, pos =>
    match insertIncludesStep loader code pos with
    | none => code
    | some (code', pos') => insertIncludesLoop loader fuel code' pos'

/-- `vsg::insertIncludes` (lines 147-262), the spec's `resolveIncludes`.
The fragment loader stands for `vsg::read_cast<ShaderModule>(filename, options)`
(line 221), the external capability of spec section 6, reduced to the loaded
fragment's `source` text. -/
def insertIncludes (source : Str) (loader : Str → Option Str) : Str :=
  insertIncludesLoop loader (source.length + 1) source 0

/-- Decidable form of "the `#pragma` occurrence at `p` is not a
`#pragma include` directive": after skipping whitespace from `p + 7`
(line 175) the next seven characters do not spell `include` (line 179). -/
def pragmaNotInclude (code : Str) (p : Nat) : Bool :=
  match find_first_not_of_ws code (p + 7) with
  | none => true
  | some q => !(substrFrom code q 7 == includeWord)

/-- The spec's example fragment name `a.glsl`. -/
def aGlsl : Str := "a.glsl".toList

/-- The spec's example directive line `#include "a.glsl"` (17 characters). -/
def dirIncludeA : Str := "#include \"a.glsl\"".toList

/-- The spec's example fragment name `b.glsl`. -/
def bGlsl : Str := "b.glsl".toList

/-- The spec's example directive line `#pragma include b.glsl`
(22 characters, unquoted). -/
def dirPragmaB : Str := "#pragma include b.glsl".toList

/-- An `#include` directive with an empty filename span (the token, one
space, and then the line terminator). -/
def dirIncludeEmpty : Str := "#include ".toList

/-! ## Per-device compiled artifact cache (lines 122-140)

`ShaderModule::compile` guards the per-device slot
`_implementation[context.deviceID]`; the slot table is modelled as a map
from device identifier to an optional handle.  `vkCreateShaderModule`
(line 136) is the external Vulkan entry point, abstracted as an
`Except`-valued argument: `Except.error r` stands for a call returning a
`VkResult` other than `VK_SUCCESS`. -/

/-- Outcome of one `ShaderModule::compile` call: the slot table after the
call, whether `Implementation::create` was invoked (line 124's assignment
right-hand side), and the propagated `vsg::Exception` if the constructor
threw (line 138).  A thrown exception aborts before the assignment at line
124, so the table field then equals the table before the call. -/
structure CompileResult (E A : Type) where
  table : Nat → Option A
  invoked : Bool
  thrown : Option (String × E)

/-- `ShaderModule::Implementation::Implementation` (lines 127-140):
forwards a successful `vkCreateShaderModule` handle, and throws
`vsg::Exception{message, result}` on any other `VkResult`. -/
def implementationCreate {E A : Type} (vkCreateShaderModule : Except E A) :
    Except (String × E) A :=
  match vkCreateShaderModule with
  | .ok handle => .ok handle
  | .error result =>
    .error ("Error: vsg::ShaderModule::create(...) failed to create shader module.", result)

/-- `ShaderModule::compile` (lines 122-125):
`if (!_implementation[context.deviceID]) _implementation[context.deviceID] = Implementation::create(...)`.
When the slot is occupied nothing runs (the condition short-circuits the
assignment, so the creation capability is not invoked). -/
def ShaderModuleCompile {E A : Type} (vkCreateShaderModule : Except E A)
    (deviceID : Nat) (table : Nat → Option A) : CompileResult E A :=
  match table deviceID with
  | some _ => { table := table, invoked := false, thrown := none }
  | none =>
    match implementationCreate vkCreateShaderModule with
    | .ok impl =>
      { table := fun i => if i = deviceID then some impl else table i
        invoked := true, thrown := none }
    | .error ex => { table := table, invoked := true, thrown := some ex }

/-! ## Versioned serialization (lines 27-55 and 86-120)

`vsg::Input` / `vsg::Output` are repository code outside the excerpt.
Modelled from the spec: an abstract structured-input/output collaborator
supporting scalar fields, enum-as-integer fields, ordered-sequence fields,
optional nested-object fields, raw-byte-array fields with an explicit
length prefix, and a query `version_greater_equal(major, minor, patch)`
gating optional fields (spec section 6).  The collaborator is a typed token
stream written in field order; each read must match the next token's kind
and property name. -/

/-- Modelled from the spec: the schema version against which
`version_greater_equal` is answered. -/
structure Version where
  major : Nat
  minor : Nat
  patch : Nat

/-- Modelled from the spec: `version_greater_equal(major, minor, patch)`,
a monotonic lexicographic comparison of the schema version. -/
def version_greater_equal (v : Version) (ma mi pa : Nat) : Bool :=
  Nat.blt ma v.major ||
    (Nat.beq v.major ma &&
      (Nat.blt mi v.minor || (Nat.beq v.minor mi && Nat.ble pa v.patch)))

/-- Modelled from the spec: one field of the structured stream written by
the `vsg::Output` collaborator and consumed by `vsg::Input`. -/
inductive Token where
  | tNat (name : String) (v : Nat)
  | tInt (name : String) (v : Int)
  | tStr (name : String) (v : String)
  | tBool (name : String) (v : Bool)
  | tStrList (name : String) (v : List String)
  | tObjTag (name : String) (present : Bool)
  | tProp (name : String)
  | tWords (v : List Nat)
  | tEol
deriving DecidableEq

/-- `vsg::ShaderCompileSettings` (data members serialized at lines 27-55). -/
structure ShaderCompileSettings where
  vulkanVersion : Nat
  clientInputVersion : Nat
  language : Int
  defaultVersion : Nat
  target : Int
  forwardCompatible : Bool
  defines : List String
deriving DecidableEq

/-- The serializable state of `vsg::ShaderModule` (lines 86-120): `source`,
optional `hints`, and the SPIR-V word sequence `code`. -/
structure ShaderModuleData where
  source : String
  hints : Option ShaderCompileSettings
  code : List Nat
deriving DecidableEq

/-- Modulus of `uint32_t`, used by `writeValue<uint32_t>("SPIRVSize", ...)`
(line 115). -/
def UINT32_MOD : Nat := 2 ^ 32

/-- Modelled from the spec: `input.read(name, nat-field)`. -/
def readNatT (name : String) : List Token → Option (Nat × List Token)
  | Token.tNat n v :: rest => if n = name then some (v, rest) else none
  | _ => none

/-- Modelled from the spec: `input.readValue<int>(name, enum-field)`. -/
def readIntT (name : String) : List Token → Option (Int × List Token)
  | Token.tInt n v :: rest => if n = name then some (v, rest) else none
  | _ => none

/-- Modelled from the spec: `input.read(name, string-field)`. -/
def readStrT (name : String) : List Token → Option (String × List Token)
  | Token.tStr n v :: rest => if n = name then some (v, rest) else none
  | _ => none

/-- Modelled from the spec: `input.read(name, bool-field)`. -/
def readBoolT (name : String) : List Token → Option (Bool × List Token)
  | Token.tBool n v :: rest => if n = name then some (v, rest) else none
  | _ => none

/-- Modelled from the spec: `input.read(name, ordered-sequence-field)`. -/
def readStrListT (name : String) : List Token → Option (List String × List Token)
  | Token.tStrList n v :: rest => if n = name then some (v, rest) else none
  | _ => none

/-- Modelled from the spec: the presence tag with which
`output.writeObject` starts an optional nested object. -/
def readObjTagT (name : String) : List Token → Option (Bool × List Token)
  | Token.tObjTag n present :: rest => if n = name then some (present, rest) else none
  | _ => none

/-- Modelled from the spec: `input.matchPropertyName(name)` (line 100). -/
def readPropT (name : String) : List Token → Option (List Token)
  | Token.tProp n :: rest => if n = name then some rest else none
  | _ => none

/-- Modelled from the spec: `input.read(count, data)` (line 101) after
`code.resize(count)`: consume a raw word array of exactly `count` words. -/
def readWordsT (count : Nat) : List Token → Option (List Nat × List Token)
  | Token.tWords v :: rest => if v.length = count then some (v, rest) else none
  | _ => none

/-- Modelled from the spec: `input.readEndOfLine`-style terminator matching
`output.writeEndOfLine()` (line 119). -/
def readEolT : List Token → Option (List Token)
  | Token.tEol :: rest => some rest
  | _ => none

/-- `ShaderCompileSettings::write` (lines 42-55). -/
def ShaderCompileSettings.write (v : Version) (s : ShaderCompileSettings) : List Token :=
  [Token.tNat "vulkanVersion" s.vulkanVersion,
   Token.tNat "clientInputVersion" s.clientInputVersion,
   Token.tInt "language" s.language,
   Token.tNat "defaultVersion" s.defaultVersion,
   Token.tInt "target" s.target,
   Token.tBool "forwardCompatible" s.forwardCompatible] ++
  (if version_greater_equal v 0 1 4 then [Token.tStrList "defines" s.defines] else [])

/-- `ShaderCompileSettings::read` (lines 27-40).  A field whose version
gate is closed keeps its default-constructed value (`defines = []`). -/
def ShaderCompileSettings.read (v : Version) (ts : List Token) :
    Option (ShaderCompileSettings × List Token) := do
  let (vulkanVersion, ts) ← readNatT "vulkanVersion" ts
  let (clientInputVersion, ts) ← readNatT "clientInputVersion" ts
  let (language, ts) ← readIntT "language" ts
  let (defaultVersion, ts) ← readNatT "defaultVersion" ts
  let (target, ts) ← readIntT "target" ts
  let (forwardCompatible, ts) ← readBoolT "forwardCompatible" ts
  if version_greater_equal v 0 1 4 then
    let (defines, ts) ← readStrListT "defines" ts
    some (⟨vulkanVersion, clientInputVersion, language, defaultVersion, target,
           forwardCompatible, defines⟩, ts)
  else
    some (⟨vulkanVersion, clientInputVersion, language, defaultVersion, target,
           forwardCompatible, []⟩, ts)

/-- `ShaderModule::write` (lines 104-120).  `Object::write` contributes no
field of its own here.  `writeObject("hints", ...)` emits a presence tag
followed, when present, by the nested settings fields;
`writeValue<uint32_t>("SPIRVSize", code.size())` truncates to 32 bits. -/
def ShaderModuleData.write (v : Version) (m : ShaderModuleData) : List Token :=
  [Token.tStr "Source" m.source] ++
  (if version_greater_equal v 0 1 3 then
    Token.tObjTag "hints" m.hints.isSome ::
      (match m.hints with
       | some s => ShaderCompileSettings.write v s
       | none => [])
   else []) ++
  [Token.tNat "SPIRVSize" (m.code.length % UINT32_MOD), Token.tProp "SPIRV",
   Token.tWords m.code, Token.tEol]

/-- `ShaderModule::read` (lines 86-102), plus consumption of the trailing
end-of-line written at line 119. -/
def ShaderModuleData.read (v : Version) (ts : List Token) :
    Option (ShaderModuleData × List Token) := do
  let (source, ts) ← readStrT "Source" ts
  let (hints, ts) ←
    (if version_greater_equal v 0 1 3 then do
      let (present, ts) ← readObjTagT "hints" ts
      if present then do
        let (s, ts) ← ShaderCompileSettings.read v ts
        some (some s, ts)
      else
        some ((none : Option ShaderCompileSettings), ts)
     else
      some ((none : Option ShaderCompileSettings), ts))
  let (spirvSize, ts) ← readNatT "SPIRVSize" ts
  let ts ← readPropT "SPIRV" ts
  let (code, ts) ← readWordsT spirvSize ts
  let ts ← readEolT ts
  some (⟨source, hints, code⟩, ts)

/-! ## Helper lemmas -/

theorem take_len (a b : Str) : (a ++ b).take a.length = a := by
  induction a with
  | nil => simp
  | cons c a ih => simp [ih]

theorem drop_len (a b : Str) : (a ++ b).drop a.length = b := by
  induction a with
  | nil => simp
  | cons c a ih => simp [ih]

theorem take_len_add (a b : Str) (k : Nat) : (a ++ b).take (a.length + k) = a ++ b.take k := by
  induction a with
  | nil => simp
  | cons c a ih => simpa [Nat.succ_add] using congrArg (c :: ·) ih

theorem drop_len_add (a b : Str) (k : Nat) : (a ++ b).drop (a.length + k) = b.drop k := by
  induction a with
  | nil => simp
  | cons c a ih => simp [Nat.succ_add, ih]

theorem charAt_len_add (a b : Str) (k : Nat) : charAt (a ++ b) (a.length + k) = charAt b k := by
  induction a with
  | nil => simp [charAt]
  | cons c a ih => simpa [charAt, Nat.succ_add] using ih

theorem strInsert_at_len (a b t : Str) : strInsert (a ++ b) a.length t = a ++ (t ++ b) := by
  simp [strInsert, take_len, drop_len]

/-- A scan over a block in which every character fails the predicate walks
straight past the block. -/
theorem findCharFrom_append_false (p : Char → Bool) (xs ys : Str) (j : Nat)
    (h : ∀ c ∈ xs, p c = false) :
    findCharFrom p (xs ++ ys) j = findCharFrom p ys (j + xs.length) := by
  induction xs generalizing j with
  | nil => simp
  | cons c cs ih =>
    have hc : p c = false := h c (by simp)
    have hcs : ∀ d ∈ cs, p d = false := fun d hd => h d (by simp [hd])
    simp [findCharFrom, hc, ih (j + 1) hcs, Nat.add_assoc, Nat.add_comm 1 cs.length]

/-- The starting index of `strFindFrom` is an offset: it shifts the result
and nothing else. -/
theorem strFindFrom_shift (pat xs : Str) (j k : Nat) :
    strFindFrom pat xs (j + k) = (strFindFrom pat xs k).map (· + j) := by
  induction xs generalizing k with
  | nil =>
    by_cases h : pat.isEmpty <;> simp [strFindFrom, h, Nat.add_comm]
  | cons c cs ih =>
    by_cases h : pat.isPrefixOf (c :: cs)
    · simp [strFindFrom, h, Nat.add_comm]
    · simp only [strFindFrom, h, if_false, Bool.false_eq_true, ite_false]
      rw [Nat.add_assoc]
      exact ih (k + 1)

/-- `strFindFrom` misses exactly when the pattern occurs at no suffix. -/
theorem strFindFrom_eq_none_iff (pat xs : Str) :
    strFindFrom pat xs 0 = none ↔ ∀ k, pat.isPrefixOf (xs.drop k) = false := by
  induction xs with
  | nil =>
    cases pat with
    | nil => simp [strFindFrom, List.isPrefixOf]
    | cons c cs => simp [strFindFrom, List.isPrefixOf]
  | cons c cs ih =>
    cases hpre : pat.isPrefixOf (c :: cs) with
    | true =>
      constructor
      · intro hnone; simp [strFindFrom, hpre] at hnone
      · intro hall
        have := hall 0
        simp [hpre] at this
    | false =>
      have hshift : strFindFrom pat cs 1 = (strFindFrom pat cs 0).map (· + 1) :=
        strFindFrom_shift pat cs 1 0
      constructor
      · intro hnone k
        simp only [strFindFrom, hpre, Bool.false_eq_true, if_false, hshift] at hnone
        have h0 : strFindFrom pat cs 0 = none := by
          cases hfind : strFindFrom pat cs 0 with
          | none => rfl
          | some r => rw [hfind] at hnone; simp at hnone
        cases k with
        | zero => simpa using hpre
        | succ k => exact (ih.mp h0) k
      · intro hall
        have h0 : strFindFrom pat cs 0 = none := ih.mpr (fun k => by simpa using hall (k + 1))
        simp [strFindFrom, hpre, hshift, h0]

/-- A successful `strFindFrom` names a position at or after the start where
the pattern really occurs. -/
theorem strFindFrom_eq_some (pat xs : Str) (j r : Nat)
    (h : strFindFrom pat xs j = some r) :
    ∃ k, r = j + k ∧ pat.isPrefixOf (xs.drop k) = true := by
  induction xs generalizing j with
  | nil =>
    by_cases hp : pat.isEmpty
    · refine ⟨0, ?_, ?_⟩
      · simp [strFindFrom, hp] at h; omega
      · cases pat with
        | nil => simp [List.isPrefixOf]
        | cons c cs => simp [List.isEmpty] at hp
    · simp [strFindFrom, hp] at h
  | cons c cs ih =>
    by_cases hpre : pat.isPrefixOf (c :: cs)
    · simp [strFindFrom, hpre] at h
      exact ⟨0, by omega, by simpa using hpre⟩
    · simp only [strFindFrom, hpre, Bool.false_eq_true, if_false] at h
      obtain ⟨k, hk, hocc⟩ := ih (j + 1) h
      exact ⟨k + 1, by omega, by simpa using hocc⟩

/-- `code.find(pat, pos)` finding nothing from position 0 finds nothing
from any later position. -/
theorem strFind_none_transport (s pat : Str) (h : strFind s pat 0 = none) (i : Nat) :
    strFind s pat i = none := by
  have h0 : strFindFrom pat s 0 = none := by simpa [strFind] using h
  have hall : ∀ k, pat.isPrefixOf (s.drop k) = false := (strFindFrom_eq_none_iff pat s).mp h0
  have hdrop : ∀ k, pat.isPrefixOf ((s.drop i).drop k) = false := by
    intro k
    have : (s.drop i).drop k = s.drop (i + k) := by
      rw [List.drop_drop, Nat.add_comm]
    rw [this]; exact hall (i + k)
  have hnone : strFindFrom pat (s.drop i) 0 = none :=
    (strFindFrom_eq_none_iff pat (s.drop i)).mpr hdrop
  have := strFindFrom_shift pat (s.drop i) i 0
  simp only [Nat.add_zero] at this
  simp [strFind, this, hnone]

/-- A successful `code.find(pat, pos)` really is an occurrence of `pat`. -/
theorem strFind_some_occurrence (s pat : Str) (i p : Nat)
    (h : strFind s pat i = some p) : pat.isPrefixOf (s.drop p) = true ∧ i ≤ p := by
  obtain ⟨k, hk, hocc⟩ := strFindFrom_eq_some pat (s.drop i) i p (by simpa [strFind] using h)
  have : (s.drop i).drop k = s.drop (i + k) := by rw [List.drop_drop, Nat.add_comm]
  rw [this] at hocc
  exact ⟨by rw [hk]; exact hocc, by omega⟩

theorem pruneTrailing_succ (code : Str) (pos n : Nat) :
    pruneTrailing code pos (n + 1) =
      if isWSChar (charAt code (pos + n)) then pruneTrailing code pos n else n + 1 := rfl

theorem findCharFrom_cons (p : Char → Bool) (c : Char) (cs : Str) (j : Nat) :
    findCharFrom p (c :: cs) j = if p c then some j else findCharFrom p cs (j + 1) := rfl

theorem loop_of_step_none (loader : Str → Option Str) (code : Str) (pos fuel : Nat)
    (h : insertIncludesStep loader code pos = none) :
    insertIncludesLoop loader fuel code pos = code := by
  cases fuel with
  | zero => rfl
  | succ n => simp [insertIncludesLoop, h]

theorem loop_of_step_some (loader : Str → Option Str) (code c : Str) (pos p fuel : Nat)
    (h : insertIncludesStep loader code pos = some (c, p)) :
    insertIncludesLoop loader (fuel + 1) code pos = insertIncludesLoop loader fuel c p := by
  simp [insertIncludesLoop, h]

theorem pruneTrailing_le (code : Str) (pos n : Nat) : pruneTrailing code pos n ≤ n := by
  induction n with
  | zero => simp [pruneTrailing]
  | succ k ih =>
    rw [pruneTrailing_succ]
    split
    · omega
    · omega

theorem pruneTrailing_one_le (code : Str) (pos n : Nat) (hn : 1 ≤ n)
    (h : isWSChar (charAt code pos) = false) : 1 ≤ pruneTrailing code pos n := by
  induction n with
  | zero => omega
  | succ k ih =>
    rw [pruneTrailing_succ]
    cases k with
    | zero => simp [Nat.add_zero, h]
    | succ k' =>
      by_cases hw : isWSChar (charAt code (pos + (k' + 1))) = true
      · simpa [hw] using ih (by omega)
      · simp [hw]

theorem SIZE_MAX_eq : SIZE_MAX = 18446744073709551616 := by norm_num [SIZE_MAX]

theorem vge_of_vge014 (v : Version) (h : version_greater_equal v 0 1 4 = true) :
    version_greater_equal v 0 1 3 = true := by
  obtain ⟨ma, mi, pa⟩ := v
  simp only [version_greater_equal, Bool.or_eq_true, Bool.and_eq_true, Nat.blt_eq,
    Nat.ble_eq, Nat.beq_eq] at h ⊢
  omega

theorem strInsert_mid (a b t : Str) (k : Nat) (hk : k = a.length) :
    strInsert (a ++ b) k t = a ++ (t ++ b) := by
  subst hk
  exact strInsert_at_len a b t

theorem strFindFrom_none_at (pat xs : Str) (j : Nat) (h : strFindFrom pat xs 0 = none) :
    strFindFrom pat xs j = none := by
  have hs := strFindFrom_shift pat xs j 0
  simp only [Nat.add_zero] at hs
  rw [hs, h]
  rfl

theorem strFindFrom_cons_none (c : Char) (pat post : Str)
    (hhead : pat.isPrefixOf (c :: post) = false)
    (hpost : strFindFrom pat post 0 = none) :
    strFindFrom pat (c :: post) 0 = none := by
  simp [strFindFrom, hhead, strFindFrom_none_at pat post 1 hpost]

theorem isPrefixOf_cons_false (c d : Char) (pat tail : Str) (h : (c == d) = false) :
    (c :: pat).isPrefixOf (d :: tail) = false := by
  simp [List.isPrefixOf]
  intro heq
  rw [heq] at h
  simp at h

/-- Neither directive token can occur at a line terminator. -/
theorem pragmaTok_not_at_newline (post : Str) :
    pragmaTok.isPrefixOf ('\n' :: post) = false := by
  rw [show pragmaTok = '#' :: "pragma".toList from rfl]
  exact isPrefixOf_cons_false '#' '\n' _ post (by decide)

theorem includeTok_not_at_newline (post : Str) :
    includeTok.isPrefixOf ('\n' :: post) = false := by
  rw [show includeTok = '#' :: "include".toList from rfl]
  exact isPrefixOf_cons_false '#' '\n' _ post (by decide)

/-- Lines 218-246, resolved case: erasing the directive line from
`a ++ line ++ rest` (the line starts at `a.length` and ends at the line
terminator opening `rest`) and splicing the two marker lines around the
fragment. -/
theorem spliceDirective_resolved (a line rest filename fragment : Str) (sl e : Nat)
    (hsl : sl = a.length) (he : e = a.length + line.length) :
    spliceDirective (a ++ (line ++ rest)) sl (some e) filename (some fragment) =
      (a ++ (startOfIncludeMarker ++ (filename ++ (endOfLine ++ (fragment ++
         (endOfIncludeMarker ++ (filename ++ (endOfLine ++ rest))))))),
       a.length + startOfIncludeMarker.length + filename.length + endOfLine.length +
         fragment.length + endOfIncludeMarker.length + filename.length + endOfLine.length) := by
  subst hsl
  subst he
  simp only [spliceDirective]
  rw [show a.length + line.length - a.length = line.length from by omega]
  rw [show strErase (a ++ (line ++ rest)) a.length line.length = a ++ rest from by
    simp only [strErase]
    rw [take_len, drop_len_add, drop_len]]
  rw [strInsert_at_len]
  rw [← List.append_assoc a startOfIncludeMarker rest]
  rw [strInsert_mid (a ++ startOfIncludeMarker) rest filename
    (a.length + startOfIncludeMarker.length) (by simp [List.length_append, Nat.add_assoc])]
  rw [← List.append_assoc (a ++ startOfIncludeMarker) filename rest]
  rw [strInsert_mid ((a ++ startOfIncludeMarker) ++ filename) rest endOfLine
    (a.length + startOfIncludeMarker.length + filename.length) (by simp [List.length_append, Nat.add_assoc])]
  rw [← List.append_assoc ((a ++ startOfIncludeMarker) ++ filename) endOfLine rest]
  rw [strInsert_mid (((a ++ startOfIncludeMarker) ++ filename) ++ endOfLine) rest fragment
    (a.length + startOfIncludeMarker.length + filename.length + endOfLine.length) (by simp [List.length_append, Nat.add_assoc])]
  rw [← List.append_assoc (((a ++ startOfIncludeMarker) ++ filename) ++ endOfLine) fragment rest]
  rw [strInsert_mid ((((a ++ startOfIncludeMarker) ++ filename) ++ endOfLine) ++ fragment) rest
    endOfIncludeMarker
    (a.length + startOfIncludeMarker.length + filename.length + endOfLine.length +
      fragment.length) (by simp [List.length_append, Nat.add_assoc])]
  rw [← List.append_assoc ((((a ++ startOfIncludeMarker) ++ filename) ++ endOfLine) ++ fragment)
    endOfIncludeMarker rest]
  rw [strInsert_mid (((((a ++ startOfIncludeMarker) ++ filename) ++ endOfLine) ++ fragment) ++
      endOfIncludeMarker) rest filename
    (a.length + startOfIncludeMarker.length + filename.length + endOfLine.length +
      fragment.length + endOfIncludeMarker.length) (by simp [List.length_append, Nat.add_assoc])]
  rw [← List.append_assoc (((((a ++ startOfIncludeMarker) ++ filename) ++ endOfLine) ++
      fragment) ++ endOfIncludeMarker) filename rest]
  rw [strInsert_mid ((((((a ++ startOfIncludeMarker) ++ filename) ++ endOfLine) ++ fragment) ++
      endOfIncludeMarker) ++ filename) rest endOfLine
    (a.length + startOfIncludeMarker.length + filename.length + endOfLine.length +
      fragment.length + endOfIncludeMarker.length + filename.length) (by simp [List.length_append, Nat.add_assoc])]
  simp [List.append_assoc]

/-- Lines 218-258, failure case: erasing the directive line and splicing the
single failure-marker line. -/
theorem spliceDirective_failed (a line rest filename : Str) (sl e : Nat)
    (hsl : sl = a.length) (he : e = a.length + line.length) :
    spliceDirective (a ++ (line ++ rest)) sl (some e) filename none =
      (a ++ (failedLoadMarker ++ (filename ++ (endOfLine ++ rest))),
       a.length + failedLoadMarker.length + filename.length + endOfLine.length) := by
  subst hsl
  subst he
  simp only [spliceDirective]
  rw [show a.length + line.length - a.length = line.length from by omega]
  rw [show strErase (a ++ (line ++ rest)) a.length line.length = a ++ rest from by
    simp only [strErase]
    rw [take_len, drop_len_add, drop_len]]
  rw [strInsert_at_len]
  rw [← List.append_assoc a failedLoadMarker rest]
  rw [strInsert_mid (a ++ failedLoadMarker) rest filename
    (a.length + failedLoadMarker.length) (by simp [List.length_append, Nat.add_assoc])]
  rw [← List.append_assoc (a ++ failedLoadMarker) filename rest]
  rw [strInsert_mid ((a ++ failedLoadMarker) ++ filename) rest endOfLine
    (a.length + failedLoadMarker.length + filename.length) (by simp [List.length_append, Nat.add_assoc])]
  simp [List.append_assoc]

/-! ## Claims -/

set_option maxRecDepth 8192

/-- Claim C1, counterexample: in the source
`#include "a.glsl"\n#pragma include b.glsl\nend\n` the `#include` token
occurs at position 0 and the `#pragma` token at position 18, yet the first
outer-scan iteration selects position 18: the occurrence at the earlier
position does not win, and the whole run resolves the pragma while the
earlier `#include` line survives unprocessed in the output. -/
theorem c1_counterexample :
    strFind ("#include \"a.glsl\"\n#pragma include b.glsl\nend\n").toList includeTok 0 = some 0 ∧
    strFind ("#include \"a.glsl\"\n#pragma include b.glsl\nend\n").toList pragmaTok 0 = some 18 ∧
    nextDirective ("#include \"a.glsl\"\n#pragma include b.glsl\nend\n").toList 0 =
      some (18, true) ∧
    insertIncludes ("#include \"a.glsl\"\n#pragma include b.glsl\nend\n").toList
        (fun s => if s = "b.glsl".toList then some ("float B;\n").toList else
          if s = "a.glsl".toList then some ("float A;\n").toList else none) =
      ("#include \"a.glsl\"\n// Start of include code : b.glsl\nfloat B;\n// End of include code : b.glsl\n\nend\n").toList := by
  refine ⟨by decide, by decide, by decide, by rfl⟩

/-- Claim C1, amended: in each outer-scan iteration the search selects any
`#pragma` occurrence ahead of the cursor, even when an `#include`
occurrence lies at an earlier position (line 165's `||` short-circuits and
line 167 prefers `pragma_pos`); the `#include` search result is selected
only when no `#pragma` occurrence is found ahead of the cursor. -/
theorem c1_pragma_wins :
    (∀ (code : Str) (pos p : Nat), strFind code pragmaTok pos = some p →
      nextDirective code pos = some (p, true)) ∧
    (∀ (code : Str) (pos q : Nat), strFind code pragmaTok pos = none →
      strFind code includeTok pos = some q →
      nextDirective code pos = some (q, false)) := by
  constructor
  · intro code pos p h
    simp [nextDirective, h]
  · intro code pos q hp hq
    simp [nextDirective, hp, hq]

/-- Claim C1, witness for the amended statement at concrete inputs. -/
theorem c1_pragma_wins_witness :
    nextDirective ("#include x\n#pragma include y\n").toList 0 = some (11, true) ∧
    nextDirective ("text\n#include z\n").toList 0 = some (5, false) :=
  ⟨c1_pragma_wins.1 _ 0 11 (by decide), c1_pragma_wins.2 _ 0 5 (by decide) (by decide)⟩

/-- Claim C2, counterexample: for the directive line `#include "d.glsl`
(no closing quote, trimmed span `"d.glsl` at positions 9-15 with
end-of-line 16), the extracted filename is the full `d.glsl`, not the
claimed `d.gls`; a loader keyed on `d.gls` therefore misses and the run
degrades to a failure marker naming `d.glsl`. -/
theorem c2_counterexample :
    parseFilenameSpan ("#include \"d.glsl\nx\n").toList (some 16) 9 = some (10, 6) ∧
    substrFrom ("#include \"d.glsl\nx\n").toList 10 6 = "d.glsl".toList ∧
    "d.glsl".toList ≠ "d.gls".toList ∧
    insertIncludes ("#include \"d.glsl\nx\n").toList
        (fun s => if s = "d.gls".toList then some ("GLS\n").toList else none) =
      ("// Failed to load include code : d.glsl\n\nx\n").toList := by
  refine ⟨by decide, by decide, by decide, by rfl⟩

/-- Claim C2, amended: for a trimmed span that begins with `"` but whose
last character is not `"`, exactly one character is stripped (line 206
shrinks the span by one and line 213 advances past the opening quote), so
the filename handed to the loader is the span minus only its leading quote:
for the span `"d.glsl` the loader key is `d.glsl`. -/
theorem c2_leading_quote_strip (code : Str) (pos e m : Nat)
    (hpos : pos < e) (he : e ≤ code.length) (hlen : code.length < SIZE_MAX)
    (hm : pruneTrailing code pos (e - pos) = m)
    (hq : charAt code pos = '"')
    (hlast : charAt code (pos + m - 1) ≠ '"') :
    parseFilenameSpan code (some e) pos = some (pos + 1, m - 1) ∧
    substrFrom code (pos + 1) (m - 1) = (substrFrom code pos m).drop 1 := by
  have hws : isWSChar (charAt code pos) = false := by rw [hq]; decide
  have hm1 : 1 ≤ m := hm ▸ pruneTrailing_one_le code pos (e - pos) (by omega) hws
  have hmle : m ≤ e - pos := hm ▸ pruneTrailing_le code pos (e - pos)
  have hwrap : (m + (SIZE_MAX - 1)) % SIZE_MAX = m - 1 := by
    rw [SIZE_MAX_eq]
    rw [SIZE_MAX_eq] at hlen
    omega
  constructor
  · simp only [parseFilenameSpan]
    rw [if_neg (show ¬ (e - pos = 0) by omega)]
    simp only [hm]
    rw [if_pos hq, if_pos hlast, hwrap]
  · simp only [substrFrom]
    have hdd : code.drop (pos + 1) = (code.drop pos).drop 1 := by
      rw [List.drop_drop, Nat.add_comm]
    rw [hdd, List.drop_take]

/-- Claim C2, witness for the amended statement on the span `"d.glsl`. -/
theorem c2_leading_quote_strip_witness :
    pruneTrailing ("#include \"d.glsl\nx\n").toList 9 (16 - 9) = 7 ∧
    parseFilenameSpan ("#include \"d.glsl\nx\n").toList (some 16) 9 = some (10, 6) ∧
    substrFrom ("#include \"d.glsl\nx\n").toList 10 6 =
      (substrFrom ("#include \"d.glsl\nx\n").toList 9 7).drop 1 :=
  ⟨by decide,
   by
    have h := c2_leading_quote_strip ("#include \"d.glsl\nx\n").toList 9 16 7
      (by decide) (by decide) (by decide) (by decide) (by decide) (by decide)
    exact ⟨h.1, h.2⟩⟩

/-- Claim C5: `ShaderModule::compile` creates the artifact at most once per
device identifier: an occupied slot makes the call a no-op that never
replaces the handle and never invokes the creation capability, an empty
slot triggers exactly one invocation, a repeat call for the same identifier
invokes nothing more, and a later call for a distinct identifier uses a
distinct slot and invokes the capability a second time. -/
theorem c5_compile_at_most_once {E A : Type} (table : Nat → Option A) (id : Nat) (x : A)
    (vk vk0 vk1 : Except E A) (a b : A)
    (hslot : table id = some x) (h0 : vk0 = .ok a) (h1 : vk1 = .ok b) :
    ShaderModuleCompile vk id table = ⟨table, false, none⟩ ∧
    ShaderModuleCompile vk0 0 (fun _ => none) =
      ⟨fun i => if i = 0 then some a else none, true, none⟩ ∧
    ShaderModuleCompile vk1 0 (fun i => if i = 0 then some a else none) =
      ⟨fun i => if i = 0 then some a else none, false, none⟩ ∧
    ShaderModuleCompile vk1 1 (fun i => if i = 0 then some a else none) =
      ⟨fun i => if i = 1 then some b else if i = 0 then some a else none, true, none⟩ := by
  refine ⟨?_, ?_, ?_, ?_⟩
  · simp [ShaderModuleCompile, hslot]
  · simp [ShaderModuleCompile, implementationCreate, h0]
  · simp [ShaderModuleCompile]
  · simp [ShaderModuleCompile, implementationCreate, h1]

/-- Claim C5, witness: a concrete slot table with the artifact type `Nat`. -/
theorem c5_compile_at_most_once_witness :
    (fun i => if i = 5 then some 42 else none) 5 = some 42 ∧
    ShaderModuleCompile (E := Unit) (Except.ok 7) 5 (fun i => if i = 5 then some 42 else none) =
      ⟨fun i => if i = 5 then some 42 else none, false, none⟩ :=
  ⟨rfl,
   (c5_compile_at_most_once (fun i => if i = 5 then some 42 else none) 5 42
      (Except.ok 7) (Except.ok 7) (Except.ok 9) 7 9 rfl rfl rfl).1⟩

/-- Claim C6: when the creation capability fails, the `Implementation`
constructor's throw (line 138) propagates as a `vsg::Exception` carrying
the underlying `VkResult`, the slot for that device identifier stays absent
(the assignment of line 124 never runs, so the table is unchanged), and a
subsequent `compile` call for the same identifier invokes the creation
capability again. -/
theorem c6_compile_failure_propagates {E A : Type} (table : Nat → Option A) (id : Nat)
    (r : E) (vk2 : Except E A) (hslot : table id = none) :
    ShaderModuleCompile (Except.error r) id table =
      ⟨table, true,
        some ("Error: vsg::ShaderModule::create(...) failed to create shader module.", r)⟩ ∧
    (ShaderModuleCompile vk2 id table).invoked = true := by
  constructor
  · simp [ShaderModuleCompile, implementationCreate, hslot]
  · cases vk2 <;> simp [ShaderModuleCompile, implementationCreate, hslot]

/-- Claim C6, witness: a concrete failing creation, then a retry. -/
theorem c6_compile_failure_propagates_witness :
    ((fun _ => none) : Nat → Option Nat) 3 = none ∧
    ShaderModuleCompile (E := Int) (A := Nat) (Except.error (-4 : Int)) 3 (fun _ => none) =
      ⟨fun _ => none, true,
        some ("Error: vsg::ShaderModule::create(...) failed to create shader module.", (-4 : Int))⟩ ∧
    (ShaderModuleCompile (E := Int) (A := Nat) (Except.ok 11) 3 (fun _ => none)).invoked = true :=
  ⟨rfl,
   (c6_compile_failure_propagates (fun _ => none) 3 (-4 : Int) (Except.ok 11) rfl).1,
   (c6_compile_failure_propagates (fun _ => none) 3 (-4 : Int) (Except.ok 11) rfl).2⟩

/-- Claim C7: writing a `ShaderModule` with populated `source`, `code` and
`hints` at schema version `≥ 0.1.4` and reading it back at the same version
returns a field-wise equal module with the whole token stream consumed:
read and write traverse the same fields in the same order under the same
gates (`hints` at `≥ 0.1.3`, `defines` at `≥ 0.1.4`), with the code array
length-prefixed by `SPIRVSize`. -/
theorem c7_serialization_roundtrip (v : Version) (m : ShaderModuleData)
    (hv : version_greater_equal v 0 1 4 = true)
    (hcode : m.code.length < UINT32_MOD) :
    ShaderModuleData.read v (ShaderModuleData.write v m) = some (m, []) := by
  have hv13 : version_greater_equal v 0 1 3 = true := vge_of_vge014 v hv
  obtain ⟨src, hints, code⟩ := m
  have hmod : code.length % UINT32_MOD = code.length :=
    Nat.mod_eq_of_lt (by simpa using hcode)
  cases hints with
  | none =>
    simp [ShaderModuleData.write, ShaderModuleData.read, hv, hv13, readStrT,
      readObjTagT, readNatT, readPropT, readWordsT, readEolT, hmod, Option.bind]
  | some s =>
    obtain ⟨f1, f2, f3, f4, f5, f6, f7⟩ := s
    simp [ShaderModuleData.write, ShaderModuleData.read, ShaderCompileSettings.write,
      ShaderCompileSettings.read, hv, hv13, readStrT, readObjTagT, readNatT, readIntT,
      readBoolT, readStrListT, readPropT, readWordsT, readEolT, hmod, Option.bind]

/-- Claim C7, witness: a concrete module with all four optional components
populated, at schema version 0.1.4. -/
theorem c7_serialization_roundtrip_witness :
    version_greater_equal ⟨0, 1, 4⟩ 0 1 4 = true ∧
    ShaderModuleData.read ⟨0, 1, 4⟩
        (ShaderModuleData.write ⟨0, 1, 4⟩
          ⟨"void main body", some ⟨100, 110, 1, 450, 2, true, ["A=1", "B"]⟩, [3, 7, 2222]⟩) =
      some (⟨"void main body", some ⟨100, 110, 1, 450, 2, true, ["A=1", "B"]⟩, [3, 7, 2222]⟩, []) :=
  ⟨by decide,
   c7_serialization_roundtrip ⟨0, 1, 4⟩
     ⟨"void main body", some ⟨100, 110, 1, 450, 2, true, ["A=1", "B"]⟩, [3, 7, 2222]⟩
     (by decide) (by decide)⟩

/-- Step analysis for sources with no `#include` occurrence and no
`#pragma include` directive: every outer-scan iteration either terminates
the loop or moves the cursor without touching the buffer. -/
theorem c8_step_cases (code : Str) (loader : Str → Option Str)
    (hInc : strFind code includeTok 0 = none)
    (hPrag : ∀ p, p < code.length → pragmaTok.isPrefixOf (code.drop p) = true →
      pragmaNotInclude code p = true) (pos : Nat) :
    insertIncludesStep loader code pos = none ∨
      ∃ e, insertIncludesStep loader code pos = some (code, e) := by
  cases hfind : strFind code pragmaTok pos with
  | none =>
    left
    have hIncPos := strFind_none_transport code includeTok hInc pos
    simp [insertIncludesStep, nextDirective, hfind, hIncPos]
  | some p =>
    obtain ⟨hocc, hge⟩ := strFind_some_occurrence code pragmaTok pos p hfind
    have hplen : p < code.length := by
      by_contra hge2
      push_neg at hge2
      rw [List.drop_eq_nil_of_le hge2] at hocc
      have : pragmaTok.isPrefixOf ([] : Str) = false := by decide
      rw [this] at hocc
      exact Bool.false_ne_true hocc
    have hni := hPrag p hplen hocc
    simp only [insertIncludesStep, nextDirective, hfind]
    cases hw : find_first_not_of_ws code (p + 7) with
    | none => simp
    | some q =>
      have hsub : ¬ (substrFrom code q 7 = includeWord) := by
        simp [pragmaNotInclude, hw] at hni
        exact hni
      cases he : find_first_of_eol code p with
      | none =>
        left
        simp [hsub]
      | some e =>
        right
        exact ⟨e, by simp [hsub]⟩

/-- Under the C8 hypotheses the whole loop leaves the buffer unchanged,
whatever the fuel and start cursor. -/
theorem c8_loop_unchanged (code : Str) (loader : Str → Option Str)
    (hInc : strFind code includeTok 0 = none)
    (hPrag : ∀ p, p < code.length → pragmaTok.isPrefixOf (code.drop p) = true →
      pragmaNotInclude code p = true) :
    ∀ fuel pos, insertIncludesLoop loader fuel code pos = code := by
  intro fuel
  induction fuel with
  | zero => intro pos; rfl
  | succ n ih =>
    intro pos
    rcases c8_step_cases code loader hInc hPrag pos with hnone | ⟨e, hsome⟩
    · exact loop_of_step_none loader code pos (n + 1) hnone
    · rw [loop_of_step_some loader code code pos e n hsome]
      exact ih e

/-- Claim C8: a source string containing no `#include` occurrence and no
`#pragma include` directive (no `#pragma` occurrence is followed, after
whitespace, by the word `include`) is returned byte-for-byte unchanged by
`insertIncludes`, for every loader; in particular a `#pragma foo` line is
preserved even when other text follows it. -/
theorem c8_no_directive_unchanged (code : Str) (loader : Str → Option Str)
    (hInc : strFind code includeTok 0 = none)
    (hPrag : ∀ p, p < code.length → pragmaTok.isPrefixOf (code.drop p) = true →
      pragmaNotInclude code p = true) :
    insertIncludes code loader = code :=
  c8_loop_unchanged code loader hInc hPrag (code.length + 1) 0

/-- Claim C8, witness: a source whose only directive-like line is
`#pragma foo`, followed by further text, with a loader that would resolve
anything. -/
theorem c8_no_directive_unchanged_witness :
    strFind ("#pragma foo\nmore shader text\n").toList includeTok 0 = none ∧
    insertIncludes ("#pragma foo\nmore shader text\n").toList
        (fun _ => some ("X").toList) =
      ("#pragma foo\nmore shader text\n").toList :=
  ⟨by decide,
   c8_no_directive_unchanged ("#pragma foo\nmore shader text\n").toList
     (fun _ => some ("X").toList) (by decide) (by decide)⟩

/-- Claim C10: a trimmed filename span that is exactly the one character
`"` drives line 210's `num_characters -= 2` from 1 to `2 ^ 64 - 1` by
unsigned wraparound; the `std::string(code, pos, num)` constructor of line
216 then clips that huge count to the end of the buffer, so the extracted
filename is the entire remainder after the quote — across line boundaries —
and `processDirective` hands exactly that remainder to the fragment
loader. -/
theorem c10_lone_quote_wrap (code : Str) (pos start_of_pragma_line : Nat)
    (loader : Str → Option Str)
    (hq : charAt code pos = '"')
    (hlen : code.length < SIZE_MAX) :
    parseFilenameSpan code (some (pos + 1)) pos = some (pos + 1, SIZE_MAX - 1) ∧
    substrFrom code (pos + 1) (SIZE_MAX - 1) = code.drop (pos + 1) ∧
    processDirective loader code start_of_pragma_line (some (pos + 1)) pos =
      some (spliceDirective code start_of_pragma_line (some (pos + 1))
        (code.drop (pos + 1)) (loader (code.drop (pos + 1)))) := by
  have hnum : pos + 1 - pos = 1 := by omega
  have hws : isWSChar (charAt code pos) = false := by rw [hq]; decide
  have hprune : pruneTrailing code pos 1 = 1 := by
    rw [pruneTrailing_succ]
    simp [hws]
  have hwrap : (1 + (SIZE_MAX - 2)) % SIZE_MAX = SIZE_MAX - 1 := by
    rw [SIZE_MAX_eq]
  have h1 : parseFilenameSpan code (some (pos + 1)) pos = some (pos + 1, SIZE_MAX - 1) := by
    simp only [parseFilenameSpan, hnum]
    rw [if_neg (show ¬ (1 = 0) by omega)]
    simp only [hprune]
    rw [if_pos hq]
    rw [if_neg (show ¬ charAt code (pos + 1 - 1) ≠ '"' by
      simp only [Nat.add_sub_cancel, hq, ne_eq, not_true_eq_false, not_false_eq_true])]
    rw [hwrap]
  have h2 : substrFrom code (pos + 1) (SIZE_MAX - 1) = code.drop (pos + 1) := by
    apply List.take_of_length_le
    have hd : (code.drop (pos + 1)).length ≤ code.length := by
      simp [List.length_drop]
    rw [SIZE_MAX_eq] at hlen ⊢
    omega
  refine ⟨h1, h2, ?_⟩
  simp [processDirective, h1, h2]

/-- Claim C10, witness: the source `#include "\nrest here` — the span is the
lone quote at position 9, and the loader receives the remainder
`\nrest here`. -/
theorem c10_lone_quote_wrap_witness :
    charAt ("#include \"\nrest here").toList 9 = '"' ∧
    parseFilenameSpan ("#include \"\nrest here").toList (some 10) 9 =
      some (10, SIZE_MAX - 1) ∧
    substrFrom ("#include \"\nrest here").toList 10 (SIZE_MAX - 1) =
      ("\nrest here").toList :=
  ⟨by decide,
   by
    have h := c10_lone_quote_wrap ("#include \"\nrest here").toList 9 0
      (fun _ => none) (by decide) (by decide)
    exact ⟨h.1, by rw [h.2.1]; decide⟩⟩

/-- Claim C3: a source `pre ++ #include "a.glsl" ++ '\n' ++ post` whose
first directive occurrence is that `#include` (no `#pragma` anywhere, and
`post` holds no further directive) resolves, when the loader yields
fragment `F` for `a.glsl`, to the start-marker line, `F`, and the
end-marker line in place of the directive line — which is gone — followed
by the retained line terminator and `post`. -/
theorem c3_include_resolved (pre post F : Str) (loader : Str → Option Str)
    (hPrag : strFind (pre ++ (dirIncludeA ++ ('\n' :: post))) pragmaTok 0 = none)
    (hFirst : strFind (pre ++ (dirIncludeA ++ ('\n' :: post))) includeTok 0 = some pre.length)
    (hPostP : strFindFrom pragmaTok post 0 = none)
    (hPostI : strFindFrom includeTok post 0 = none)
    (hLoad : loader aGlsl = some F) :
    insertIncludes (pre ++ (dirIncludeA ++ ('\n' :: post))) loader =
      pre ++ (startOfIncludeMarker ++ (aGlsl ++ (endOfLine ++ (F ++
        (endOfIncludeMarker ++ (aGlsl ++ (endOfLine ++ ('\n' :: post)))))))) := by
  have hdl : (pre ++ (dirIncludeA ++ ('\n' :: post))).drop pre.length =
      dirIncludeA ++ ('\n' :: post) := drop_len pre _
  have heol : find_first_of_eol (pre ++ (dirIncludeA ++ ('\n' :: post))) pre.length =
      some (pre.length + 17) := by
    unfold find_first_of_eol
    rw [hdl]
    rw [findCharFrom_append_false isEOLChar dirIncludeA ('\n' :: post) pre.length (by decide)]
    rw [findCharFrom_cons]
    rw [if_pos (show isEOLChar '\n' = true from by decide)]
    rw [show dirIncludeA.length = 17 from rfl]
  have hfnw : find_first_not_of_ws (pre ++ (dirIncludeA ++ ('\n' :: post))) (pre.length + 8) =
      some (pre.length + 9) := by
    unfold find_first_not_of_ws
    rw [drop_len_add]
    rw [show (dirIncludeA ++ ('\n' :: post)).drop 8 =
      ' ' :: ('"' :: ("a.glsl\"".toList ++ ('\n' :: post))) from rfl]
    rw [findCharFrom_cons, findCharFrom_cons]
    rw [if_neg (show ¬ ((fun c => !isWSChar c) ' ' = true) from by decide)]
    rw [if_pos (show ((!isWSChar '"') = true) from by decide)]
  have hc16 : charAt (pre ++ (dirIncludeA ++ ('\n' :: post))) (pre.length + 16) = '"' := by
    rw [charAt_len_add]
    rfl
  have hc9 : charAt (pre ++ (dirIncludeA ++ ('\n' :: post))) (pre.length + 9) = '"' := by
    rw [charAt_len_add]
    rfl
  have hparse : parseFilenameSpan (pre ++ (dirIncludeA ++ ('\n' :: post)))
      (some (pre.length + 17)) (pre.length + 9) = some (pre.length + 10, 6) := by
    simp only [parseFilenameSpan]
    rw [show pre.length + 17 - (pre.length + 9) = 8 from by omega]
    rw [if_neg (show ¬ ((8 : Nat) = 0) from by omega)]
    rw [show pruneTrailing (pre ++ (dirIncludeA ++ ('\n' :: post))) (pre.length + 9) 8 = 8 from by
      rw [pruneTrailing_succ]
      rw [show pre.length + 9 + 7 = pre.length + 16 from by omega]
      rw [hc16]
      rw [if_neg (show ¬ (isWSChar '"' = true) from by decide)]]
    rw [if_pos hc9]
    rw [if_neg (show ¬ (charAt (pre ++ (dirIncludeA ++ ('\n' :: post)))
        (pre.length + 9 + 8 - 1) ≠ '"') from by
      rw [show pre.length + 9 + 8 - 1 = pre.length + 16 from by omega, hc16]
      simp)]
    rw [show pre.length + 9 + 1 = pre.length + 10 from by omega]
    rw [show (8 + (SIZE_MAX - 2)) % SIZE_MAX = 6 from by rw [SIZE_MAX_eq]]
  have hsub : substrFrom (pre ++ (dirIncludeA ++ ('\n' :: post))) (pre.length + 10) 6 =
      aGlsl := by
    unfold substrFrom
    rw [drop_len_add]
    rfl
  have hsplice := spliceDirective_resolved pre dirIncludeA ('\n' :: post) aGlsl F
    pre.length (pre.length + 17) rfl (by rw [show dirIncludeA.length = 17 from rfl])
  have hstep1 : insertIncludesStep loader (pre ++ (dirIncludeA ++ ('\n' :: post))) 0 =
      some (pre ++ (startOfIncludeMarker ++ (aGlsl ++ (endOfLine ++ (F ++
          (endOfIncludeMarker ++ (aGlsl ++ (endOfLine ++ ('\n' :: post)))))))),
        pre.length + startOfIncludeMarker.length + aGlsl.length + endOfLine.length +
          F.length + endOfIncludeMarker.length + aGlsl.length + endOfLine.length) := by
    simp only [insertIncludesStep, nextDirective, hPrag, hFirst]
    simp only [Bool.false_eq_true, if_false]
    rw [show pre.length + 8 = pre.length + 8 from rfl]
    rw [hfnw]
    simp only [processDirective, heol, hparse, hsub, hLoad, hsplice]
  have hdrop2 : (pre ++ (startOfIncludeMarker ++ (aGlsl ++ (endOfLine ++ (F ++
        (endOfIncludeMarker ++ (aGlsl ++ (endOfLine ++ ('\n' :: post))))))))).drop
      (pre.length + startOfIncludeMarker.length + aGlsl.length + endOfLine.length +
        F.length + endOfIncludeMarker.length + aGlsl.length + endOfLine.length) =
      '\n' :: post := by
    rw [show pre ++ (startOfIncludeMarker ++ (aGlsl ++ (endOfLine ++ (F ++
        (endOfIncludeMarker ++ (aGlsl ++ (endOfLine ++ ('\n' :: post)))))))) =
      (((((((pre ++ startOfIncludeMarker) ++ aGlsl) ++ endOfLine) ++ F) ++
        endOfIncludeMarker) ++ aGlsl) ++ endOfLine) ++ ('\n' :: post) from by
      simp [List.append_assoc]]
    rw [show pre.length + startOfIncludeMarker.length + aGlsl.length + endOfLine.length +
        F.length + endOfIncludeMarker.length + aGlsl.length + endOfLine.length =
      ((((((((pre ++ startOfIncludeMarker) ++ aGlsl) ++ endOfLine) ++ F) ++
        endOfIncludeMarker) ++ aGlsl) ++ endOfLine)).length from by
      simp [List.length_append, Nat.add_assoc]]
    exact drop_len _ _
  have hfind2P : strFind (pre ++ (startOfIncludeMarker ++ (aGlsl ++ (endOfLine ++ (F ++
        (endOfIncludeMarker ++ (aGlsl ++ (endOfLine ++ ('\n' :: post))))))))) pragmaTok
      (pre.length + startOfIncludeMarker.length + aGlsl.length + endOfLine.length +
        F.length + endOfIncludeMarker.length + aGlsl.length + endOfLine.length) = none := by
    unfold strFind
    rw [hdrop2]
    exact strFindFrom_none_at _ _ _
      (strFindFrom_cons_none '\n' pragmaTok post (pragmaTok_not_at_newline post) hPostP)
  have hfind2I : strFind (pre ++ (startOfIncludeMarker ++ (aGlsl ++ (endOfLine ++ (F ++
        (endOfIncludeMarker ++ (aGlsl ++ (endOfLine ++ ('\n' :: post))))))))) includeTok
      (pre.length + startOfIncludeMarker.length + aGlsl.length + endOfLine.length +
        F.length + endOfIncludeMarker.length + aGlsl.length + endOfLine.length) = none := by
    unfold strFind
    rw [hdrop2]
    exact strFindFrom_none_at _ _ _
      (strFindFrom_cons_none '\n' includeTok post (includeTok_not_at_newline post) hPostI)
  have hstep2 : insertIncludesStep loader
      (pre ++ (startOfIncludeMarker ++ (aGlsl ++ (endOfLine ++ (F ++
        (endOfIncludeMarker ++ (aGlsl ++ (endOfLine ++ ('\n' :: post)))))))))
      (pre.length + startOfIncludeMarker.length + aGlsl.length + endOfLine.length +
        F.length + endOfIncludeMarker.length + aGlsl.length + endOfLine.length) = none := by
    simp only [insertIncludesStep, nextDirective, hfind2P, hfind2I]
  unfold insertIncludes
  rw [loop_of_step_some _ _ _ _ _ _ hstep1]
  exact loop_of_step_none _ _ _ _ hstep2

/-- Claim C3, witness: `pre = "vec4 c;\n"`, `post = "void f();\n"`,
fragment `F = "float x;\n"`. -/
theorem c3_include_resolved_witness :
    strFind ("vec4 c;\n".toList ++ (dirIncludeA ++ ('\n' :: "void f();\n".toList)))
      pragmaTok 0 = none ∧
    insertIncludes ("vec4 c;\n".toList ++ (dirIncludeA ++ ('\n' :: "void f();\n".toList)))
        (fun s => if s = aGlsl then some ("float x;\n".toList) else none) =
      "vec4 c;\n".toList ++ (startOfIncludeMarker ++ (aGlsl ++ (endOfLine ++
        ("float x;\n".toList ++ (endOfIncludeMarker ++ (aGlsl ++ (endOfLine ++
          ('\n' :: "void f();\n".toList)))))))) :=
  ⟨by decide,
   c3_include_resolved "vec4 c;\n".toList "void f();\n".toList "float x;\n".toList
     (fun s => if s = aGlsl then some ("float x;\n".toList) else none)
     (by decide) (by decide) (by decide) (by decide) (by decide)⟩

/-- Claim C4: a source `pre ++ #pragma include b.glsl ++ '\n' ++ post`
whose first `#pragma` occurrence is that directive (and `post` holds no
further directive) is resolved without any exception path when the loader
reports not-found for `b.glsl`: the directive line is removed and replaced
by exactly the one failure-marker line naming `b.glsl` — no start or end
marker — and scanning continues past the inserted marker into `post`,
leaving the rest of the source intact. -/
theorem c4_missing_fragment_marker (pre post : Str) (loader : Str → Option Str)
    (hPrag : strFind (pre ++ (dirPragmaB ++ ('\n' :: post))) pragmaTok 0 = some pre.length)
    (hPostP : strFindFrom pragmaTok post 0 = none)
    (hPostI : strFindFrom includeTok post 0 = none)
    (hLoad : loader bGlsl = none) :
    insertIncludes (pre ++ (dirPragmaB ++ ('\n' :: post))) loader =
      pre ++ (failedLoadMarker ++ (bGlsl ++ (endOfLine ++ ('\n' :: post)))) := by
  have heol : find_first_of_eol (pre ++ (dirPragmaB ++ ('\n' :: post))) pre.length =
      some (pre.length + 22) := by
    unfold find_first_of_eol
    rw [drop_len pre]
    rw [findCharFrom_append_false isEOLChar dirPragmaB ('\n' :: post) pre.length (by decide)]
    rw [findCharFrom_cons]
    rw [if_pos (show isEOLChar '\n' = true from by decide)]
    rw [show dirPragmaB.length = 22 from rfl]
  have hfnw1 : find_first_not_of_ws (pre ++ (dirPragmaB ++ ('\n' :: post)))
      (pre.length + 7) = some (pre.length + 8) := by
    unfold find_first_not_of_ws
    rw [drop_len_add]
    rw [show (dirPragmaB ++ ('\n' :: post)).drop 7 =
      ' ' :: ("include b.glsl".toList ++ ('\n' :: post)) from rfl]
    rw [findCharFrom_cons]
    rw [if_neg (show ¬ ((fun c => !isWSChar c) ' ' = true) from by decide)]
    rw [show "include b.glsl".toList ++ ('\n' :: post) =
      'i' :: ("nclude b.glsl".toList ++ ('\n' :: post)) from rfl]
    rw [findCharFrom_cons]
    rw [if_pos (show ((!isWSChar 'i') = true) from by decide)]
  have hcomp : substrFrom (pre ++ (dirPragmaB ++ ('\n' :: post))) (pre.length + 8) 7 =
      includeWord := by
    unfold substrFrom
    rw [drop_len_add]
    rfl
  have hfnw2 : find_first_not_of_ws (pre ++ (dirPragmaB ++ ('\n' :: post)))
      (pre.length + 8 + 7) = some (pre.length + 16) := by
    unfold find_first_not_of_ws
    rw [show pre.length + 8 + 7 = pre.length + 15 from by omega]
    rw [drop_len_add]
    rw [show (dirPragmaB ++ ('\n' :: post)).drop 15 =
      ' ' :: ("b.glsl".toList ++ ('\n' :: post)) from rfl]
    rw [findCharFrom_cons]
    rw [if_neg (show ¬ ((fun c => !isWSChar c) ' ' = true) from by decide)]
    rw [show "b.glsl".toList ++ ('\n' :: post) =
      'b' :: (".glsl".toList ++ ('\n' :: post)) from rfl]
    rw [findCharFrom_cons]
    rw [if_pos (show ((!isWSChar 'b') = true) from by decide)]
  have hc21 : charAt (pre ++ (dirPragmaB ++ ('\n' :: post))) (pre.length + 21) = 'l' := by
    rw [charAt_len_add]
    rfl
  have hc16 : charAt (pre ++ (dirPragmaB ++ ('\n' :: post))) (pre.length + 16) = 'b' := by
    rw [charAt_len_add]
    rfl
  have hparse : parseFilenameSpan (pre ++ (dirPragmaB ++ ('\n' :: post)))
      (some (pre.length + 22)) (pre.length + 16) = some (pre.length + 16, 6) := by
    simp only [parseFilenameSpan]
    rw [show pre.length + 22 - (pre.length + 16) = 6 from by omega]
    rw [if_neg (show ¬ ((6 : Nat) = 0) from by omega)]
    rw [show pruneTrailing (pre ++ (dirPragmaB ++ ('\n' :: post))) (pre.length + 16) 6 =
        6 from by
      rw [pruneTrailing_succ]
      rw [show pre.length + 16 + 5 = pre.length + 21 from by omega]
      rw [hc21]
      rw [if_neg (show ¬ (isWSChar 'l' = true) from by decide)]]
    rw [if_neg (show ¬ (charAt (pre ++ (dirPragmaB ++ ('\n' :: post)))
        (pre.length + 16) = '"') from by
      rw [hc16]
      decide)]
  have hsub : substrFrom (pre ++ (dirPragmaB ++ ('\n' :: post))) (pre.length + 16) 6 =
      bGlsl := by
    unfold substrFrom
    rw [drop_len_add]
    rfl
  have hsplice := spliceDirective_failed pre dirPragmaB ('\n' :: post) bGlsl
    pre.length (pre.length + 22) rfl (by rw [show dirPragmaB.length = 22 from rfl])
  have hstep1 : insertIncludesStep loader (pre ++ (dirPragmaB ++ ('\n' :: post))) 0 =
      some (pre ++ (failedLoadMarker ++ (bGlsl ++ (endOfLine ++ ('\n' :: post)))),
        pre.length + failedLoadMarker.length + bGlsl.length + endOfLine.length) := by
    simp only [insertIncludesStep, nextDirective, hPrag]
    simp only [if_true, eq_self_iff_true]
    rw [hfnw1]
    simp only [hcomp, eq_self_iff_true, if_true]
    rw [hfnw2]
    simp only [processDirective, heol, hparse, hsub, hLoad, hsplice]
  have hdrop2 : (pre ++ (failedLoadMarker ++ (bGlsl ++ (endOfLine ++ ('\n' :: post))))).drop
      (pre.length + failedLoadMarker.length + bGlsl.length + endOfLine.length) =
      '\n' :: post := by
    rw [show pre ++ (failedLoadMarker ++ (bGlsl ++ (endOfLine ++ ('\n' :: post)))) =
      (((pre ++ failedLoadMarker) ++ bGlsl) ++ endOfLine) ++ ('\n' :: post) from by
      simp [List.append_assoc]]
    rw [show pre.length + failedLoadMarker.length + bGlsl.length + endOfLine.length =
      ((((pre ++ failedLoadMarker) ++ bGlsl) ++ endOfLine)).length from by
      simp [List.length_append, Nat.add_assoc]]
    exact drop_len _ _
  have hfind2P : strFind (pre ++ (failedLoadMarker ++ (bGlsl ++ (endOfLine ++
        ('\n' :: post))))) pragmaTok
      (pre.length + failedLoadMarker.length + bGlsl.length + endOfLine.length) = none := by
    unfold strFind
    rw [hdrop2]
    exact strFindFrom_none_at _ _ _
      (strFindFrom_cons_none '\n' pragmaTok post (pragmaTok_not_at_newline post) hPostP)
  have hfind2I : strFind (pre ++ (failedLoadMarker ++ (bGlsl ++ (endOfLine ++
        ('\n' :: post))))) includeTok
      (pre.length + failedLoadMarker.length + bGlsl.length + endOfLine.length) = none := by
    unfold strFind
    rw [hdrop2]
    exact strFindFrom_none_at _ _ _
      (strFindFrom_cons_none '\n' includeTok post (includeTok_not_at_newline post) hPostI)
  have hstep2 : insertIncludesStep loader
      (pre ++ (failedLoadMarker ++ (bGlsl ++ (endOfLine ++ ('\n' :: post)))))
      (pre.length + failedLoadMarker.length + bGlsl.length + endOfLine.length) = none := by
    simp only [insertIncludesStep, nextDirective, hfind2P, hfind2I]
  unfold insertIncludes
  rw [loop_of_step_some _ _ _ _ _ _ hstep1]
  exact loop_of_step_none _ _ _ _ hstep2

/-- Claim C4, witness: `pre = "vec4 c;\n"`, `post = "tail();\n"`, loader
that loads nothing. -/
theorem c4_missing_fragment_marker_witness :
    strFind ("vec4 c;\n".toList ++ (dirPragmaB ++ ('\n' :: "tail();\n".toList)))
      pragmaTok 0 = some ("vec4 c;\n".toList).length ∧
    insertIncludes ("vec4 c;\n".toList ++ (dirPragmaB ++ ('\n' :: "tail();\n".toList)))
        (fun _ => none) =
      "vec4 c;\n".toList ++ (failedLoadMarker ++ (bGlsl ++ (endOfLine ++
        ('\n' :: "tail();\n".toList)))) :=
  ⟨by decide,
   c4_missing_fragment_marker "vec4 c;\n".toList "tail();\n".toList (fun _ => none)
     (by decide) (by decide) (by decide) rfl⟩

/-- Claim C9: a directive whose filename span is empty (`#include` followed
by one space and then the line terminator) is skipped without touching the
buffer: the iteration returns the buffer unchanged with the cursor at the
line terminator (no loader call is made — the loader is arbitrary and
unused), and the full scan leaves the source — directive line included —
byte-for-byte intact. -/
theorem c9_empty_filename_skipped (pre post : Str) (loader : Str → Option Str)
    (hPrag : strFind (pre ++ (dirIncludeEmpty ++ ('\n' :: post))) pragmaTok 0 = none)
    (hFirst : strFind (pre ++ (dirIncludeEmpty ++ ('\n' :: post))) includeTok 0 =
      some pre.length)
    (hPostP : strFindFrom pragmaTok post 0 = none)
    (hPostI : strFindFrom includeTok post 0 = none) :
    insertIncludesStep loader (pre ++ (dirIncludeEmpty ++ ('\n' :: post))) 0 =
      some (pre ++ (dirIncludeEmpty ++ ('\n' :: post)), pre.length + 9) ∧
    insertIncludes (pre ++ (dirIncludeEmpty ++ ('\n' :: post))) loader =
      pre ++ (dirIncludeEmpty ++ ('\n' :: post)) := by
  have heol : find_first_of_eol (pre ++ (dirIncludeEmpty ++ ('\n' :: post))) pre.length =
      some (pre.length + 9) := by
    unfold find_first_of_eol
    rw [drop_len pre]
    rw [findCharFrom_append_false isEOLChar dirIncludeEmpty ('\n' :: post) pre.length
      (by decide)]
    rw [findCharFrom_cons]
    rw [if_pos (show isEOLChar '\n' = true from by decide)]
    rw [show dirIncludeEmpty.length = 9 from rfl]
  have hfnw : find_first_not_of_ws (pre ++ (dirIncludeEmpty ++ ('\n' :: post)))
      (pre.length + 8) = some (pre.length + 9) := by
    unfold find_first_not_of_ws
    rw [drop_len_add]
    rw [show (dirIncludeEmpty ++ ('\n' :: post)).drop 8 = ' ' :: ('\n' :: post) from rfl]
    rw [findCharFrom_cons]
    rw [if_neg (show ¬ ((fun c => !isWSChar c) ' ' = true) from by decide)]
    rw [findCharFrom_cons]
    rw [if_pos (show ((!isWSChar '\n') = true) from by decide)]
  have hparse : parseFilenameSpan (pre ++ (dirIncludeEmpty ++ ('\n' :: post)))
      (some (pre.length + 9)) (pre.length + 9) = none := by
    simp only [parseFilenameSpan]
    rw [show pre.length + 9 - (pre.length + 9) = 0 from by omega]
    rw [if_pos rfl]
  have hstep1 : insertIncludesStep loader (pre ++ (dirIncludeEmpty ++ ('\n' :: post))) 0 =
      some (pre ++ (dirIncludeEmpty ++ ('\n' :: post)), pre.length + 9) := by
    simp only [insertIncludesStep, nextDirective, hPrag, hFirst]
    simp only [Bool.false_eq_true, if_false]
    rw [hfnw]
    simp only [processDirective, heol, hparse]
  have hdrop2 : (pre ++ (dirIncludeEmpty ++ ('\n' :: post))).drop (pre.length + 9) =
      '\n' :: post := by
    rw [drop_len_add]
    rfl
  have hfind2P : strFind (pre ++ (dirIncludeEmpty ++ ('\n' :: post))) pragmaTok
      (pre.length + 9) = none := by
    unfold strFind
    rw [hdrop2]
    exact strFindFrom_none_at _ _ _
      (strFindFrom_cons_none '\n' pragmaTok post (pragmaTok_not_at_newline post) hPostP)
  have hfind2I : strFind (pre ++ (dirIncludeEmpty ++ ('\n' :: post))) includeTok
      (pre.length + 9) = none := by
    unfold strFind
    rw [hdrop2]
    exact strFindFrom_none_at _ _ _
      (strFindFrom_cons_none '\n' includeTok post (includeTok_not_at_newline post) hPostI)
  have hstep2 : insertIncludesStep loader (pre ++ (dirIncludeEmpty ++ ('\n' :: post)))
      (pre.length + 9) = none := by
    simp only [insertIncludesStep, nextDirective, hfind2P, hfind2I]
  refine ⟨hstep1, ?_⟩
  unfold insertIncludes
  rw [loop_of_step_some _ _ _ _ _ _ hstep1]
  exact loop_of_step_none _ _ _ _ hstep2

/-- Claim C9, witness: `pre = "x;\n"`, `post = "y;\n"`, with a loader that
would resolve anything — the empty-span directive is still skipped and the
source returned unchanged. -/
theorem c9_empty_filename_skipped_witness :
    strFind ("x;\n".toList ++ (dirIncludeEmpty ++ ('\n' :: "y;\n".toList))) includeTok 0 =
      some ("x;\n".toList).length ∧
    insertIncludes ("x;\n".toList ++ (dirIncludeEmpty ++ ('\n' :: "y;\n".toList)))
        (fun s => some ('Z' :: s)) =
      "x;\n".toList ++ (dirIncludeEmpty ++ ('\n' :: "y;\n".toList)) :=
  ⟨by decide,
   (c9_empty_filename_skipped "x;\n".toList "y;\n".toList (fun s => some ('Z' :: s))
     (by decide) (by decide) (by decide) (by decide)).2⟩

end VsgShaderModule
